import Mathlib

/-!
Verification development for the claude-swarm orchestration engine.

The definitions below are a shallow embedding of the Python sources under
`src/claude_swarm/` (state.py, orchestrator.py, worker.py, integrator.py,
worktree.py, guards.py, prompts.py).  Machine floats for USD costs are
modelled as rationals (the decimal literals involved are exact in both),
Python dicts as insertion-ordered association lists, subprocess and agent
invocations as explicit oracles supplied to the embedded functions, and
raised exceptions as `Except` / explicit outcome constructors.
-/

namespace ClaudeSwarm

/-! ## Association lists (Python `dict` with insertion order) -/

/-- Lookup in an insertion-ordered association list (`d[k]` / `k in d`). -/
def alist_lookup {α : Type} : List (String × α) → String → Option α
  | [], _ => none
  | (k, v) :: rest, key => if k = key then some v else alist_lookup rest key

/-- Update the value stored at a key, leaving the list unchanged when the
key is absent (mirrors mutating `d[k]` after a presence check). -/
def alist_update {α : Type} : List (String × α) → String → (α → α) → List (String × α)
  | [], _, _ => []
  | (k, v) :: rest, key, f =>
    if k = key then (k, f v) :: rest else (k, v) :: alist_update rest key f

/-- Insert-or-replace (`d[k] = v`): replacement keeps the position of the key,
a fresh key is appended at the end, as Python dicts do. -/
def alist_insert {α : Type} : List (String × α) → String → α → List (String × α)
  | [], key, v => [(key, v)]
  | (k, w) :: rest, key, v =>
    if k = key then (k, v) :: rest else (k, w) :: alist_insert rest key v

/-! ## Data model (models.py, state.py) -/

/-- RunStatus (models.py). -/
inductive RunStatus
  | planning
  | executing
  | integrating
  | completed
  | failed
  | interrupted
  | paused_checkpoint
deriving DecidableEq

/-- WorkerStatus (models.py). -/
inductive WorkerStatus
  | pending
  | running
  | completed
  | failed
deriving DecidableEq

/-- WorkerTask (models.py); list-valued advisory fields kept as lists. -/
structure WorkerTask where
  worker_id : String
  title : String
  description : String
  target_files : List String := []
  acceptance_criteria : List String := []
  coordination_notes : String := ""
  coupled_with : List String := []
  shared_interfaces : List String := []
deriving DecidableEq

/-- WorkerResult (models.py).  `cost_usd` is a Python float, embedded as ℚ. -/
structure WorkerResult where
  worker_id : String
  success : Bool
  cost_usd : Option ℚ := none
  duration_ms : Option ℤ := none
  summary : Option String := none
  files_changed : List String := []
  error : Option String := none
  attempt : ℕ := 1
  model_used : Option String := none
deriving DecidableEq

/-- WorkerState (state.py); the fields unused by the embedded operations
(`worktree_path`) are omitted. -/
structure WorkerState where
  worker_id : String
  title : String
  status : WorkerStatus := .pending
  branch : String
  cost_usd : Option ℚ := none
  duration_ms : Option ℤ := none
  summary : Option String := none
  error : Option String := none
  files_changed : List String := []
  attempt : ℕ := 1
  model_used : Option String := none
  started_at : Option String := none
  completed_at : Option String := none
deriving DecidableEq

/-- RunState (state.py); `plan`, `integration_branch` and `config_snapshot`
are not touched by any embedded operation and are omitted. -/
structure RunState where
  run_id : String
  task : String
  status : RunStatus := .planning
  base_branch : String := "main"
  workers : List (String × WorkerState) := []
  pr_url : Option String := none
  total_cost_usd : ℚ := 0
  error : Option String := none
  started_at : String
  updated_at : String
deriving DecidableEq

/-- SwarmState (state.py). -/
structure SwarmState where
  version : ℕ := 1
  active_run : Option String := none
  runs : List (String × RunState) := []
deriving DecidableEq

/-- The empty state a fresh `StateManager.load` yields. -/
def emptySwarmState : SwarmState := {}

/-! ## State Store operations (state.py `StateManager`)

Each Python mutator reloads, mutates and atomically saves the document;
the embedding is the pure state transformer applied between load and save.
`now` stands for the `_now()` timestamp string of the call. -/

/-- StateManager.start_run: demote a non-terminal active run to interrupted,
then register the new run as active (status `planning`). -/
def start_run (s : SwarmState) (rid task now base_branch : String) : SwarmState :=
  let s1 :=
    match s.active_run with
    | none => s
    | some ar =>
      match alist_lookup s.runs ar with
      | none => s
      | some existing =>
        if existing.status ≠ RunStatus.completed ∧ existing.status ≠ RunStatus.failed then
          let demote := fun (r : RunState) =>
            { r with status := RunStatus.interrupted, updated_at := now }
          { s with runs := alist_update s.runs ar demote }
        else s
  let run_state : RunState :=
    { run_id := rid, task := task, status := RunStatus.planning,
      base_branch := base_branch, started_at := now, updated_at := now }
  { s1 with runs := alist_insert s1.runs rid run_state, active_run := some rid }

/-- StateManager.set_run_status: no-op (with a warning) on an unknown run. -/
def set_run_status (s : SwarmState) (rid : String) (status : RunStatus) (now : String) :
    SwarmState :=
  match alist_lookup s.runs rid with
  | none => s
  | some _ =>
    let upd := fun (r : RunState) => { r with status := status, updated_at := now }
    { s with runs := alist_update s.runs rid upd }

/-- Sum of `w.cost_usd or 0` over the workers of a run (state.py `complete_run`). -/
def sum_worker_costs (workers : List (String × WorkerState)) : ℚ :=
  (workers.map (fun w => w.2.cost_usd.getD 0)).sum

/-- StateManager.complete_run: mark completed, set pr_url, recompute
`total_cost_usd` as the sum of worker costs, clear a matching active_run. -/
def complete_run (s : SwarmState) (rid : String) (pr_url : Option String) (now : String) :
    SwarmState :=
  match alist_lookup s.runs rid with
  | none => s
  | some _ =>
    let upd := fun (r : RunState) =>
      { r with status := RunStatus.completed, pr_url := pr_url,
               total_cost_usd := sum_worker_costs r.workers, updated_at := now }
    let s1 := { s with runs := alist_update s.runs rid upd }
    if s.active_run = some rid then { s1 with active_run := none } else s1

/-- StateManager.fail_run. -/
def fail_run (s : SwarmState) (rid error now : String) : SwarmState :=
  match alist_lookup s.runs rid with
  | none => s
  | some _ =>
    let upd := fun (r : RunState) =>
      { r with status := RunStatus.failed, error := some error, updated_at := now }
    let s1 := { s with runs := alist_update s.runs rid upd }
    if s.active_run = some rid then { s1 with active_run := none } else s1

/-- StateManager.register_worker: fresh WorkerState with `started_at = now`. -/
def register_worker (s : SwarmState) (rid wid title branch now : String) : SwarmState :=
  match alist_lookup s.runs rid with
  | none => s
  | some _ =>
    let fresh : WorkerState :=
      { worker_id := wid, title := title, branch := branch, started_at := some now }
    let upd := fun (r : RunState) =>
      { r with workers := alist_insert r.workers wid fresh, updated_at := now }
    { s with runs := alist_update s.runs rid upd }

/-- StateManager.update_worker: the Python call sets the keyword-provided
fields on the worker; each call site below passes the corresponding field
update as `f`.  No-op when the run or worker is unknown. -/
def update_worker (s : SwarmState) (rid wid : String) (f : WorkerState → WorkerState)
    (now : String) : SwarmState :=
  match alist_lookup s.runs rid with
  | none => s
  | some run =>
    match alist_lookup run.workers wid with
    | none => s
    | some _ =>
      let upd := fun (r : RunState) =>
        { r with workers := alist_update r.workers wid f, updated_at := now }
      { s with runs := alist_update s.runs rid upd }

/-- Status of a persisted run. -/
def run_status (s : SwarmState) (rid : String) : Option RunStatus :=
  (alist_lookup s.runs rid).map (fun r => r.status)

/-- A persisted worker record. -/
def persisted_worker (s : SwarmState) (rid wid : String) : Option WorkerState :=
  (alist_lookup s.runs rid).bind (fun r => alist_lookup r.workers wid)

/-! ## Worker pool execution (orchestrator.py `_execute_workers`)

`launch_with_throttle` runs its body inside the semaphore; the agent call
`spawn_worker_with_retry` and the worktree diff are supplied as oracles.
A raising call is an `exn` outcome (caught by the except handler of the slot). -/

/-- Outcome of awaiting `spawn_worker_with_retry` inside a worker slot. -/
inductive SpawnOutcome
  | ok (r : WorkerResult)
  | exn (msg : String)
deriving DecidableEq

/-- The error string used by the cost circuit breaker. -/
def skipError : String := "Skipped: cost limit exceeded"

/-- Shared executor state: the running-cost tally and circuit-breaker flag
(closure variables of `_execute_workers`), plus the persisted state. -/
structure ExecSt where
  running_cost : ℚ := 0
  cost_exceeded : Bool := false
  state : SwarmState
deriving DecidableEq

/-- The worker-state update applied when the circuit breaker skips a
worker. -/
def skip_update (now : String) : WorkerState → WorkerState := fun w =>
  { w with status := WorkerStatus.failed, error := some skipError,
           completed_at := some now }

/-- Body of `launch_with_throttle` (orchestrator.py): the critical section
executed under the semaphore for one task.  Returns the new executor
state, the WorkerResult for the slot, and whether the Worker Runner was
invoked. -/
def launch_step (spawn : WorkerTask → SpawnOutcome) (changed_files : String → List String)
    (max_cost : ℚ) (rid now : String) (st : ExecSt) (task : WorkerTask) :
    ExecSt × WorkerResult × Bool :=
  if st.cost_exceeded then
    let state1 := update_worker st.state rid task.worker_id (skip_update now) now
    ({ st with state := state1 },
     { worker_id := task.worker_id, success := false, error := some skipError }, false)
  else
    let state1 := update_worker st.state rid task.worker_id
      (fun w => { w with status := WorkerStatus.running, started_at := some now }) now
    match spawn task with
    | SpawnOutcome.ok r0 =>
      let r := { r0 with files_changed := changed_files task.worker_id }
      let state2 := update_worker state1 rid task.worker_id
        (fun w => { w with
          status := if r.success then WorkerStatus.completed else WorkerStatus.failed,
          cost_usd := r.cost_usd, duration_ms := r.duration_ms, summary := r.summary,
          files_changed := r.files_changed, error := r.error, attempt := r.attempt,
          model_used := r.model_used, completed_at := some now }) now
      match r.cost_usd with
      | some c =>
        let rc := st.running_cost + c
        let exceeded := if rc > max_cost then true else st.cost_exceeded
        ({ running_cost := rc, cost_exceeded := exceeded, state := state2 }, r, true)
      | none =>
        ({ st with state := state2 }, r, true)
    | SpawnOutcome.exn e =>
      let state2 := update_worker state1 rid task.worker_id
        (fun w => { w with status := WorkerStatus.failed, error := some e,
                           completed_at := some now }) now
      ({ st with state := state2 },
       { worker_id := task.worker_id, success := false, error := some e }, true)

/-- Sequential execution of the worker slots.  With `max_workers = 1` the
semaphore serializes the slot bodies exactly like this fold; in general
the circuit-breaker check and the tally update both happen inside the
critical section, so each slot observes the state left by the previously
completed slots.  The third component records which workers actually
invoked the Worker Runner. -/
def execute_workers (spawn : WorkerTask → SpawnOutcome)
    (changed_files : String → List String) (max_cost : ℚ) (rid now : String)
    (init : ExecSt) (tasks : List WorkerTask) :
    ExecSt × List WorkerResult × List String :=
  tasks.foldl
    (fun acc task =>
      let st := acc.1
      let step := launch_step spawn changed_files max_cost rid now st task
      (step.1, acc.2.1 ++ [step.2.1],
       acc.2.2 ++ (if step.2.2 then [task.worker_id] else [])))
    (init, [], [])

/-! ## Orchestrator.run tail (orchestrator.py)

The pieces of `run()` the claims are about: the checkpoint-1 decline
path, the autonomous auto-merge gate, and finalization when no worker
succeeded.  Integration itself is supplied as an oracle result. -/

/-- Python truthiness of `if pr_url:` for a `str | None`. -/
def prTruthy : Option String → Bool
  | none => false
  | some u => !(u == "")

/-- Auto-merge gate (orchestrator.py lines 175-210): `auto_merge_pr` is
awaited only inside `if integration_success:`, then `if pr_url:`, then
`if self.config.oversight == "autonomous":`. -/
def auto_merge_invoked (integration_success : Bool) (pr_url : Option String)
    (oversight : String) : Bool :=
  integration_success && prTruthy pr_url && (oversight == "autonomous")

/-- Modelled from the spec: `auto_merge_pr` is referenced by
orchestrator.py and tests/test_oversight.py but its definition is missing
from src/integrator.py.  Per spec section 4.8 and the GitHub CLI contract
of section 6, it invokes the GitHub CLI exactly once, as
`gh pr merge <url> --auto --squash`.  This is the list of subprocess
argument vectors it spawns. -/
def auto_merge_pr_commands (pr_url : String) : List (List String) :=
  [["gh", "pr", "merge", pr_url, "--auto", "--squash"]]

/-- Modelled from the spec: the return value of `auto_merge_pr` — true
exactly when the single GitHub CLI invocation exits zero; non-zero exit
returns false (no direct-merge fallback is attempted). -/
def auto_merge_pr (returncode : ℤ) : Bool := returncode == 0

/-- Checkpoint-1 decline path of `Orchestrator.run` (orchestrator.py
lines 100-112 with `_checkpoint`, lines 45-67): `_checkpoint` sets
`paused_checkpoint`, the user declines, so it sets `interrupted` and
returns false; `run()` then calls `complete_run` and returns without
executing any workers.  The boolean records whether `_execute_workers`
was reached (it is not). -/
def checkpoint1_decline (s : SwarmState) (rid now1 now2 now3 : String) :
    SwarmState × Bool :=
  let afterPause := set_run_status s rid RunStatus.paused_checkpoint now1
  let afterDecline := set_run_status afterPause rid RunStatus.interrupted now2
  (complete_run afterDecline rid none now3, false)

/-- Intermediate persisted state of the decline path, just after
`_checkpoint` returns false and before `run()` calls `complete_run`. -/
def checkpoint1_decline_mid (s : SwarmState) (rid now1 now2 : String) : SwarmState :=
  set_run_status (set_run_status s rid RunStatus.paused_checkpoint now1) rid
    RunStatus.interrupted now2

/-- Finalization of `Orchestrator.run` after Phase C (orchestrator.py
lines 119-253), with the integration phase abstracted as an oracle
`integ` giving `(integration_success, pr_url)` for the successful
workers.  When no worker succeeded the whole `if successful:` block is
skipped.  The final persisted state applies
`complete_run` when `integration_success or not successful`, else
`fail_run("Integration failed")`.  Returns the persisted state, whether
the Integrator was invoked, and the `(integration_success, pr_url)`
of the returned SwarmResult. -/
def run_finalize (s : SwarmState) (rid now : String)
    (integ : List WorkerResult → Bool × Option String)
    (worker_results : List WorkerResult) :
    SwarmState × Bool × Bool × Option String :=
  let successful := worker_results.filter (fun r => r.success)
  let outcome : Bool × Bool × Option String :=
    if successful.isEmpty then (false, false, none)
    else
      let res := integ successful
      (true, res.1, res.2)
  let invoked := outcome.1
  let integration_success := outcome.2.1
  let pr_url := outcome.2.2
  let final :=
    if integration_success || successful.isEmpty then complete_run s rid pr_url now
    else fail_run s rid "Integration failed" now
  (final, invoked, integration_success, pr_url)

/-! ## Worker Runner (worker.py)

### System prompt assembly of `_spawn_single_attempt`

The Python code builds the system prompt by successive `+=` of filled
templates from prompts.py; the embedding records the appended sections as
a list of tagged parts carrying their format arguments.  The signature of
`_spawn_single_attempt` in src/claude_swarm/worker.py takes only
`notes_dir` — it has no `coordination_dir` parameter, although
orchestrator.py and the tests pass one. -/

/-- One section appended to a worker system prompt.  The constructors
cover every template in prompts.py that can be appended to
WORKER_SYSTEM_PROMPT; `coordinationSection` (WORKER_COORDINATION_SECTION)
and `couplingSection` (WORKER_COUPLING_SECTION) exist in prompts.py but
are never referenced by worker.py. -/
inductive PromptPart
  | base (task_description target_files acceptance_criteria : String)
  | notesSection (notes_dir_path worker_id : String)
  | coordinationInstructions (coordination_instructions : String)
  | coordinationSection (coordination_dir_path worker_id : String)
  | couplingSection (coupled_workers shared_interfaces : String)
deriving DecidableEq

/-- The distinctive header line of each template in prompts.py (these are
the strings the tests of the repository assert on). -/
def section_header : PromptPart → String
  | PromptPart.base _ _ _ => "You are a worker agent in a claude-swarm."
  | PromptPart.notesSection _ _ => "## Shared Notes (Inter-Worker Coordination)"
  | PromptPart.coordinationInstructions _ => "## Coordination Instructions"
  | PromptPart.coordinationSection _ _ => "## Coordination (Inter-Worker Communication)"
  | PromptPart.couplingSection _ _ => "## Coupled Workers"

/-- System prompt assembly of `_spawn_single_attempt` (worker.py lines
24-51) as shipped in src: base prompt, then — only when `notes_dir` is
not None — the legacy WORKER_NOTES_SECTION, plus
WORKER_COORDINATION_INSTRUCTIONS when `task.coordination_notes` is
truthy.  There is no coordination-directory branch. -/
def worker_system_prompt_parts (task : WorkerTask) (notes_dir : Option String) :
    List PromptPart :=
  let target_files :=
    if task.target_files.isEmpty then "No specific files targeted."
    else String.intercalate "\n" (task.target_files.map (fun f => "- " ++ f))
  let acceptance :=
    if task.acceptance_criteria.isEmpty then "Complete the task as described."
    else String.intercalate "\n" (task.acceptance_criteria.map (fun c => "- " ++ c))
  [PromptPart.base task.description target_files acceptance] ++
    (match notes_dir with
     | none => []
     | some d =>
       [PromptPart.notesSection d task.worker_id] ++
         (if task.coordination_notes ≠ "" then
            [PromptPart.coordinationInstructions task.coordination_notes]
          else []))

/-! ### Retry and escalation (`spawn_worker_with_retry`, worker.py 95-140)

The result of the k-th `_spawn_single_attempt` call is supplied by the
oracle `attempt_result` (an attempt that raises propagates out of the
function and is outside this model; the claims concern policy-declared
failures).  The trace records, for each attempt actually made, the
1-based attempt number and the model passed to `_spawn_single_attempt`. -/

/-- The retry loop of `spawn_worker_with_retry`: `last_result` and the
loop variable `attempt` are the Python locals, `remaining` the number of
loop iterations left. -/
def retry_go (attempt_result : ℕ → WorkerResult) (model escalation_model : String)
    (enable_escalation : Bool) (last_result : Option WorkerResult)
    (attempt remaining : ℕ) : Option WorkerResult × List (ℕ × String) :=
  match remaining with
  | 0 => (last_result, [])
  | r + 1 =>
    let escalate := decide (1 < attempt) && enable_escalation &&
      (match last_result with
       | some lr => !lr.success
       | none => false)
    let current_model := if escalate then escalation_model else model
    let result0 := attempt_result attempt
    let result := { result0 with attempt := attempt, model_used := some current_model }
    if result.success then (some result, [(attempt, current_model)])
    else
      let rest := retry_go attempt_result model escalation_model enable_escalation
        (some result) (attempt + 1) r
      (rest.1, (attempt, current_model) :: rest.2)

/-- Function `spawn_worker_with_retry` (worker.py): `for attempt in
range(1, max_retries + 1)`, returning `last_result` when every attempt
failed (`none` only in the degenerate `max_retries = 0` case, where
Python returns None). -/
def spawn_worker_with_retry (attempt_result : ℕ → WorkerResult)
    (model escalation_model : String) (enable_escalation : Bool) (max_retries : ℕ) :
    Option WorkerResult × List (ℕ × String) :=
  retry_go attempt_result model escalation_model enable_escalation none 1 max_retries

/-! ## Integrator merge loop (integrator.py `integrate_results`, lines 59-93) -/

/-- The data carried by a raised MergeConflictError (errors.py). -/
structure MergeConflictErrorData where
  message : String
  conflicting_branches : List String
  diff_context : String
deriving DecidableEq

/-- Git operations performed by the merge loop, in order: the `merge
--no-ff` attempt for each branch, the `merge --abort` on the failure
path, and the `diff <base> <branch>` capturing conflict context. -/
inductive GitOp
  | mergeBranch (branch : String)
  | mergeAbort
  | diffBase (branch : String)
deriving DecidableEq

/-- Python `diff_context[:2000]` — string slicing is by characters. -/
def truncate_chars (n : ℕ) (s : String) : String := String.mk (s.data.take n)

/-- The merge loop of `integrate_results`: `merge_ok b` is whether
`git merge --no-ff … b` succeeds, `resolver_ok b` whether the
conflict-resolver agent returns non-error for branch `b`, and `diff_of b`
the output of `git diff <base> <b>`.  `merged` is the accumulated
`merged_branches` list.  On an unresolved conflict the loop aborts the
merge, captures the truncated diff and raises MergeConflictError with
`[branch] + merged_branches`. -/
def integrate_merges (merge_ok resolver_ok : String → Bool) (resolve_conflicts : Bool)
    (diff_of : String → String) :
    List String → List String → List GitOp × Except MergeConflictErrorData (List String)
  | [], merged => ([], Except.ok merged)
  | b :: rest, merged =>
    if merge_ok b then
      let tail := integrate_merges merge_ok resolver_ok resolve_conflicts diff_of rest
        (merged ++ [b])
      (GitOp.mergeBranch b :: tail.1, tail.2)
    else if resolve_conflicts && resolver_ok b then
      let tail := integrate_merges merge_ok resolver_ok resolve_conflicts diff_of rest
        (merged ++ [b])
      (GitOp.mergeBranch b :: tail.1, tail.2)
    else
      ([GitOp.mergeBranch b, GitOp.mergeAbort, GitOp.diffBase b],
       Except.error
         { message := "Merge conflict when integrating " ++ b,
           conflicting_branches := [b] ++ merged,
           diff_context := truncate_chars 2000 (diff_of b) })

/-! ## Git invocation helper (worktree.py `_run_git`, lines 17-54) -/

/-- Result of one `git` subprocess: exit code and the decoded, stripped
stdout/stderr. -/
structure ProcResult where
  returncode : ℤ
  stdout : String
  stderr : String
deriving DecidableEq

/-- Outcome of `_run_git`: a returned string or a raised WorktreeError. -/
inductive GitOutcome
  | ok (out : String)
  | err (msg : String)
deriving DecidableEq

/-- Does `needle` occur as a prefix of `hay`? -/
def starts_with : List Char → List Char → Bool
  | [], _ => true
  | _ :: _, [] => false
  | c :: cs, h :: hs => c == h && starts_with cs hs

/-- Occurrence anywhere (`needle in hay` on Python strings). -/
def has_substr (needle : List Char) : List Char → Bool
  | [] => starts_with needle []
  | h :: hs => starts_with needle (h :: hs) || has_substr needle hs

/-- Substring test on strings. -/
def contains_substr (needle hay : String) : Bool := has_substr needle.data hay.data

/-- Python `str.lower()` on ASCII text. -/
def to_lower_str (s : String) : String := String.mk (s.data.map Char.toLower)

/-- Suffix test (`str.endswith`). -/
def ends_with (s suffix : String) : Bool := starts_with suffix.data.reverse s.data.reverse

/-- Python `"lock" in err.lower()`. -/
def stderr_mentions_lock (err : String) : Bool := contains_substr "lock" (to_lower_str err)

/-- The retry loop of `_run_git`: `proc i` is the result of the i-th
subprocess execution, `remaining` the iterations left of
`for attempt in range(retries)`.  Exit 0 returns stdout; a lock error
sleeps and continues; any other failure raises (or, with `check=false`,
returns stdout); exhausting all attempts on lock errors raises the
lock-contention message (or returns "" with `check=false`). -/
def run_git_go (proc : ℕ → ProcResult) (args_str : String) (check : Bool)
    (retries : ℕ) : ℕ → ℕ → GitOutcome
  | _, 0 =>
    if check then
      GitOutcome.err
        ("git " ++ args_str ++ " failed after " ++ toString retries ++
          " retries (lock contention)")
    else GitOutcome.ok ""
  | i, r + 1 =>
    let p := proc i
    if p.returncode = 0 then GitOutcome.ok p.stdout
    else if stderr_mentions_lock p.stderr then run_git_go proc args_str check retries (i + 1) r
    else if check then GitOutcome.err ("git " ++ args_str ++ " failed: " ++ p.stderr)
    else GitOutcome.ok p.stdout

/-- Function `_run_git(args, cwd, retries=3, check=…)`. -/
def run_git (proc : ℕ → ProcResult) (args : List String) (check : Bool)
    (retries : ℕ := 3) : GitOutcome :=
  run_git_go proc (String.intercalate " " args) check retries 0 retries

/-! ## Command Guard (guards.py)

The deny rules are Python `re` patterns applied with `pattern.search`.
The constructs they use — literal characters, character classes,
`*` / `+` / `?` over single-character classes, alternation, the
zero-width assertions `^`, `$`, `\b`, and the IGNORECASE flag on the SQL
rules — are embedded as a small regex language with Python semantics
(`.` excludes the newline, `$` also matches before a sole trailing
newline, `\b` is an ASCII word boundary; the commands guarded here are
ASCII). -/

/-- Single-character matchers appearing in the deny patterns. -/
inductive RChar
  | lit (c : Char)
  | litCI (c : Char)
  | anyc
  | space
  | nonspace
  | alpha
  | oneOf (cs : List Char)
  | noneOf (cs : List Char)
deriving DecidableEq

/-- Python `\s` on ASCII text. -/
def isSpaceChar (x : Char) : Bool :=
  x == ' ' || x == '\t' || x == '\n' || x == '\r' || x == Char.ofNat 11 || x == Char.ofNat 12

def RChar.matches : RChar → Char → Bool
  | RChar.lit c, x => x == c
  | RChar.litCI c, x => x.toLower == c
  | RChar.anyc, x => !(x == '\n')
  | RChar.space, x => isSpaceChar x
  | RChar.nonspace, x => !(isSpaceChar x)
  | RChar.alpha, x => ('a' ≤ x && x ≤ 'z') || ('A' ≤ x && x ≤ 'Z')
  | RChar.oneOf cs, x => cs.contains x
  | RChar.noneOf cs, x => !(cs.contains x)

/-- Regex syntax: `star`/`plus` only over single-character matchers,
which covers every starred subpattern in guards.py. -/
inductive Re
  | eps
  | ch (r : RChar)
  | star (r : RChar)
  | plus (r : RChar)
  | seq (a b : Re)
  | alt (a b : Re)
  | opt (a : Re)
  | wordB
  | bos
  | eos
deriving DecidableEq

/-- Python `\w` for the `\b` assertion (ASCII). -/
def isWordChar (x : Char) : Bool :=
  ('a' ≤ x && x ≤ 'z') || ('A' ≤ x && x ≤ 'Z') || ('0' ≤ x && x ≤ '9') || x == Char.ofNat 95

def wordOpt : Option Char → Bool
  | none => false
  | some c => isWordChar c

/-- All ways a class-star can consume a prefix: each result is the last
consumed character (context for later assertions) and the remainder. -/
def starSplits (r : RChar) (prev : Option Char) : List Char → List (Option Char × List Char)
  | [] => [(prev, [])]
  | c :: rest =>
    (prev, c :: rest) :: (if r.matches c then starSplits r (some c) rest else [])

/-- Nondeterministic matcher: all `(last consumed char, remainder)` pairs
after matching `re` at the current position; `prev` is the character just
before the position (`none` at the start of the string). -/
def mtch : Re → Option Char → List Char → List (Option Char × List Char)
  | Re.eps, prev, s => [(prev, s)]
  | Re.ch r, _, [] => (fun _ => []) r
  | Re.ch r, _, c :: rest => if r.matches c then [(some c, rest)] else []
  | Re.star r, prev, s => starSplits r prev s
  | Re.plus r, _, [] => (fun _ => []) r
  | Re.plus r, _, c :: rest => if r.matches c then starSplits r (some c) rest else []
  | Re.seq a b, prev, s => (mtch a prev s).flatMap (fun p => mtch b p.1 p.2)
  | Re.alt a b, prev, s => mtch a prev s ++ mtch b prev s
  | Re.opt a, prev, s => (prev, s) :: mtch a prev s
  | Re.wordB, prev, s => if wordOpt prev != wordOpt s.head? then [(prev, s)] else []
  | Re.bos, prev, s => if prev.isNone then [(prev, s)] else []
  | Re.eos, prev, s =>
    match s with
    | [] => [(prev, [])]
    | [c] => if c == '\n' then [(prev, [c])] else []
    | _ => []

/-- Python `pattern.search`: try a match at every position. -/
def search_from (re : Re) : Option Char → List Char → Bool
  | prev, [] => !(mtch re prev []).isEmpty
  | prev, c :: rest => !(mtch re prev (c :: rest)).isEmpty || search_from re (some c) rest

def re_search (re : Re) (s : String) : Bool := search_from re none s.data

/-! Pattern-building helpers. -/

def rlit (c : Char) : Re := Re.ch (RChar.lit c)

def rseq : List Re → Re
  | [] => Re.eps
  | [r] => r
  | r :: rest => Re.seq r (rseq rest)

/-- A case-sensitive literal string. -/
def rlits (s : String) : Re := rseq (s.data.map rlit)

/-- A literal string under re.IGNORECASE (argument given lowercase). -/
def rlitsCI (s : String) : Re := rseq (s.data.map (fun c => Re.ch (RChar.litCI c)))

def ralt : List Re → Re
  | [] => Re.eps
  | [r] => r
  | r :: rest => Re.alt r (ralt rest)

def spPlus : Re := Re.plus RChar.space
def spStar : Re := Re.star RChar.space
def dotStar : Re := Re.star RChar.anyc
def alStar : Re := Re.star RChar.alpha

/-- The command-position anchor `(?:^|[;&|]\s*|&&\s*|\|\|\s*|\|\s*)` used
by the sudo/mkfs/shred/nohup/crontab rules. -/
def cmd_start : Re :=
  ralt [Re.bos,
    rseq [Re.ch (RChar.oneOf [';', '&', '|']), spStar],
    rseq [rlits "&&", spStar],
    rseq [rlits "||", spStar],
    rseq [rlits "|", spStar]]

/-- The anchor `(?:^|[;&|]\s*|&&\s*|\|\|\s*)` of the `at` rule (it lacks
the single-pipe alternative). -/
def at_start : Re :=
  ralt [Re.bos,
    rseq [Re.ch (RChar.oneOf [';', '&', '|']), spStar],
    rseq [rlits "&&", spStar],
    rseq [rlits "||", spStar]]

/-- The rule set `_BASH_DENY_PATTERNS` (guards.py lines 13-74), in source order. -/
def BASH_DENY_PATTERNS : List (Re × String) :=
  [ (rseq [rlits "git", spPlus, rlits "push", spPlus, dotStar, rlits "--force", Re.wordB],
     "Force push is blocked"),
    (rseq [rlits "git", spPlus, rlits "push", spPlus, dotStar, rlit '-', alStar, rlit 'f',
       alStar, Re.wordB],
     "Force push is blocked"),
    (rseq [rlits "git", spPlus, rlits "checkout", spPlus,
       Re.alt (rlits "main") (rlits "master"), Re.wordB],
     "Checking out protected branch is blocked"),
    (rseq [rlits "git", spPlus, rlits "switch", spPlus,
       Re.alt (rlits "main") (rlits "master"), Re.wordB],
     "Switching to protected branch is blocked"),
    (rseq [rlits "rm", spPlus, rlit '-', alStar, rlit 'r', alStar, rlit 'f', alStar, spPlus,
       rlit '/'],
     "Recursive delete on absolute path is blocked"),
    (rseq [rlits "rm", spPlus, rlit '-', alStar, rlit 'f', alStar, rlit 'r', alStar, spPlus,
       rlit '/'],
     "Recursive delete on absolute path is blocked"),
    (rseq [rlits "rm", spPlus, dotStar, rlits "-r", Re.wordB, dotStar, rlits "-f", Re.wordB,
       dotStar, spPlus, rlit '/'],
     "Recursive delete on absolute path is blocked"),
    (rseq [rlits "rm", spPlus, dotStar, rlits "-f", Re.wordB, dotStar, rlits "-r", Re.wordB,
       dotStar, spPlus, rlit '/'],
     "Recursive delete on absolute path is blocked"),
    (rseq [rlits "git", spPlus, rlits "reset", spPlus, rlits "--hard", Re.wordB],
     "Hard reset is blocked"),
    (rseq [rlits "git", spPlus, rlits "clean", spPlus, rlit '-', alStar, rlit 'f'],
     "git clean -f is blocked"),
    (rseq [rlitsCI "drop", spPlus, rlitsCI "table"],
     "DROP TABLE is blocked"),
    (rseq [rlitsCI "delete", spPlus, rlitsCI "from", spPlus, Re.plus RChar.nonspace, spStar,
       rlit ';'],
     "DELETE FROM without WHERE is blocked"),
    (rseq [rlitsCI "delete", spPlus, rlitsCI "from", spPlus, Re.plus RChar.nonspace, spStar,
       Re.eos],
     "DELETE FROM without WHERE is blocked"),
    (rseq [rlits "curl", spPlus, dotStar, rlit '|', spStar,
       Re.opt (ralt [rlits "ba", rlits "da", rlits "z"]), rlits "sh", Re.wordB],
     "Piping curl to shell is blocked"),
    (rseq [rlits "curl", spPlus, dotStar, rlit '|', spStar, rlit '/',
       Re.star RChar.nonspace, rlits "sh", Re.wordB],
     "Piping curl to shell is blocked"),
    (rseq [rlits "wget", spPlus, dotStar, rlit '|', spStar,
       Re.opt (ralt [rlits "ba", rlits "da", rlits "z"]), rlits "sh", Re.wordB],
     "Piping wget to shell is blocked"),
    (rseq [rlits "wget", spPlus, dotStar, rlit '|', spStar, rlit '/',
       Re.star RChar.nonspace, rlits "sh", Re.wordB],
     "Piping wget to shell is blocked"),
    (rseq [cmd_start, rlits "sudo", Re.wordB],
     "sudo is blocked"),
    (rseq [cmd_start, rlits "mkfs", Re.wordB],
     "mkfs is blocked"),
    (rseq [Re.wordB, rlits "dd", Re.wordB, dotStar, Re.wordB, rlits "of", spStar, rlit '=',
       spStar, rlits "/dev/"],
     "dd writing to device is blocked"),
    (rseq [cmd_start, rlits "shred", Re.wordB],
     "shred is blocked"),
    (rseq [rlit '|', spStar, rlits "nc", Re.wordB],
     "Piping to nc (netcat) is blocked"),
    (rseq [rlit '|', spStar, rlits "netcat", Re.wordB],
     "Piping to netcat is blocked"),
    (rseq [rlit '|', spStar, rlits "ncat", Re.wordB],
     "Piping to ncat is blocked"),
    (rlits "/dev/tcp/",
     "/dev/tcp access is blocked (reverse shell vector)"),
    (rlits "/dev/udp/",
     "/dev/udp access is blocked (reverse shell vector)"),
    (rseq [Re.wordB, rlits "nc", Re.wordB, Re.star (RChar.noneOf [';', '&', '|', '\n']),
       rlit '-', alStar, rlit 'e', Re.wordB],
     "nc -e is blocked (reverse shell vector)"),
    (rseq [Re.wordB, rlits "ncat", Re.wordB, Re.star (RChar.noneOf [';', '&', '|', '\n']),
       rlit '-', alStar, rlit 'e', Re.wordB],
     "ncat -e is blocked (reverse shell vector)"),
    (rseq [rlit '>', spStar, rlits "/etc/"], "Overwriting /etc/ is blocked"),
    (rseq [rlit '>', spStar, rlits "/var/"], "Overwriting /var/ is blocked"),
    (rseq [rlit '>', spStar, rlits "/usr/"], "Overwriting /usr/ is blocked"),
    (rseq [rlit '>', spStar, rlits "/sys/"], "Overwriting /sys/ is blocked"),
    (rseq [rlit '>', spStar, rlits "/proc/"], "Overwriting /proc/ is blocked"),
    (rseq [Re.wordB, rlits "tee", spPlus, rlits "/etc/"], "tee to /etc/ is blocked"),
    (rseq [Re.wordB, rlits "tee", spPlus, rlits "/var/"], "tee to /var/ is blocked"),
    (rseq [Re.wordB, rlits "tee", spPlus, rlits "/usr/"], "tee to /usr/ is blocked"),
    (rseq [Re.wordB, rlits "tee", spPlus, rlits "/sys/"], "tee to /sys/ is blocked"),
    (rseq [Re.wordB, rlits "tee", spPlus, rlits "/proc/"], "tee to /proc/ is blocked"),
    (rseq [cmd_start, rlits "nohup", Re.wordB],
     "nohup is blocked"),
    (rseq [cmd_start, rlits "crontab", Re.wordB],
     "crontab is blocked"),
    (rseq [at_start, rlits "at", Re.ch RChar.space],
     "at scheduler is blocked"),
    (rseq [Re.wordB, rlits "find", spPlus, rlit '/', Re.star RChar.nonspace,
       Re.ch RChar.space, dotStar, rlits "-delete", Re.wordB],
     "find -delete on absolute path is blocked"),
    (rseq [Re.wordB, rlits "find", spPlus, rlit '/', Re.star RChar.nonspace,
       Re.ch RChar.space, dotStar, rlits "-exec", spPlus, rlits "rm", Re.wordB],
     "find -exec rm on absolute path is blocked"),
    (rseq [Re.wordB, rlits "chmod", Re.wordB, dotStar, Re.wordB, rlits "777", Re.wordB],
     "chmod 777 is blocked"),
    (rseq [Re.wordB, rlits "chmod", Re.wordB, dotStar, spPlus, rlits "/etc/"],
     "chmod on /etc/ is blocked"),
    (rseq [Re.wordB, rlits "chmod", Re.wordB, dotStar, spPlus, rlits "/usr/"],
     "chmod on /usr/ is blocked"),
    (rseq [Re.wordB, rlits "chmod", Re.wordB, dotStar, spPlus, rlits "/sys/"],
     "chmod on /sys/ is blocked"),
    (rseq [rlit ':', rlit '(', rlit ')', spStar, rlit (Char.ofNat 123)],
     "Fork bomb pattern is blocked"),
    (rseq [rlits "git", spPlus, rlits "remote", spPlus, rlits "add", Re.wordB],
     "Adding git remotes is blocked"),
    (rseq [rlits "git", spPlus, rlits "remote", spPlus, rlits "set-url", Re.wordB],
     "Changing git remote URLs is blocked") ]

/-- Linear scan returning the reason of the first matching rule. -/
def first_deny : List (Re × String) → String → Option String
  | [], _ => none
  | (re, reason) :: rest, cmd =>
    if re_search re cmd then some reason else first_deny rest cmd

/-- Function `_check_bash_command` (guards.py): denial reason, or None if allowed. -/
def check_bash_command (cmd : String) : Option String :=
  first_deny BASH_DENY_PATTERNS cmd

/-! ## Concrete inputs used by the scenario theorems and witnesses -/

/-- The float literal 0.10 as an exact rational (1/10 in lowest terms,
given in normal form so that kernel evaluation of comparisons works). -/
def q010 : ℚ := ⟨1, 10, by decide, by decide⟩

/-- The float literal 0.05 as an exact rational (1/20 in lowest terms). -/
def q005 : ℚ := ⟨1, 20, by decide, by decide⟩

/-- A minimal plan task. -/
def scTask (wid t : String) : WorkerTask := { worker_id := wid, title := t, description := t }

/-- The plan of the budget-circuit-breaker scenario (spec section 8,
scenario 4; tests/test_orchestrator.py `TestCostCircuitBreaker`). -/
def c1Tasks : List WorkerTask := [scTask "w1" "t1", scTask "w2" "t2", scTask "w3" "t3"]

/-- Worker Runner oracle: every worker completes successfully reporting
`cost_usd = 0.10`. -/
def c1Spawn : WorkerTask → SpawnOutcome := fun t =>
  SpawnOutcome.ok { worker_id := t.worker_id, success := true, cost_usd := some q010,
                    duration_ms := some 100, summary := some "ok" }

/-- Worktree-diff oracle: no files changed. -/
def c1NoFiles : String → List String := fun _ => []

/-- Persisted state after `start_run` and the three `register_worker`
calls of `_execute_workers`. -/
def c1State0 : SwarmState :=
  register_worker
    (register_worker
      (register_worker (start_run emptySwarmState "run-1" "test" "T0" "main")
        "run-1" "w1" "t1" "swarm/run-1/w1" "T0")
      "run-1" "w2" "t2" "swarm/run-1/w2" "T0")
    "run-1" "w3" "t3" "swarm/run-1/w3" "T0"

/-- Initial executor state (`_running_cost = 0`, flag clear). -/
def c1Init : ExecSt := { state := c1State0 }

/-- The scenario execution: `max_workers = 1` (sequential), `max_cost = 0.05`. -/
def c1Exec : ExecSt × List WorkerResult × List String :=
  execute_workers c1Spawn c1NoFiles q005 "run-1" "T1" c1Init c1Tasks

/-- An executor state whose circuit-breaker flag is already set. -/
def c1SkipSt : ExecSt := { running_cost := q010, cost_exceeded := true, state := c1State0 }

/-- A freshly started run (used by the checkpoint and finalize examples). -/
def c2State0 : SwarmState := start_run emptySwarmState "run-1" "demo task" "T0" "main"

/-- A run with two workers carrying costs 0.10 and 0.05. -/
def c9State : SwarmState :=
  let s0 := start_run emptySwarmState "run-1" "t" "T0" "main"
  let s1 := register_worker s0 "run-1" "w1" "t1" "b1" "T0"
  let s2 := register_worker s1 "run-1" "w2" "t2" "b2" "T0"
  let s3 := update_worker s2 "run-1" "w1" (fun w => { w with cost_usd := some (1/10) }) "T1"
  update_worker s3 "run-1" "w2" (fun w => { w with cost_usd := some (1/20) }) "T1"

/-- Phase C results in which no worker succeeded. -/
def c10Results : List WorkerResult :=
  [{ worker_id := "w1", success := false, error := some "boom" },
   { worker_id := "w2", success := false, error := some "crashed" }]

/-- An integration oracle that would succeed — `run_finalize` must not
consult it when no worker succeeded. -/
def c10Integ : List WorkerResult → Bool × Option String := fun _ => (true, some "http://pr/1")

/-- Attempt oracle for the retry witness: first attempt fails, second
succeeds. -/
def c5Outcome : ℕ → WorkerResult := fun k =>
  { worker_id := "w1", success := decide (2 ≤ k), error := some "something broke" }

/-- Merge oracle for the conflict witness: only the branch of w1 merges. -/
def c6MergeOk : String → Bool := fun b => b == "swarm/run-1/w1"

/-- Conflict-resolver oracle that always fails. -/
def c6ResolverFail : String → Bool := fun _ => false

/-- Diff oracle. -/
def c6Diff : String → String := fun b => "diff base.." ++ b

/-- A subprocess that fails with non-lock stderr but non-empty stdout. -/
def c7BadProc : ℕ → ProcResult := fun _ =>
  { returncode := 1, stdout := "partial", stderr := "fatal: nope" }

/-- A subprocess that always hits lock contention. -/
def c7LockProc : ℕ → ProcResult := fun _ =>
  { returncode := 128, stdout := "", stderr := "Unable to create lock file" }

/-- The model-selection policy of `spawn_worker_with_retry`: the first
attempt uses the base model; later attempts (reached only after a
failure) use the escalation model when escalation is enabled. -/
def retry_model_for (model escalation_model : String) (enable_escalation : Bool) (k : ℕ) :
    String :=
  if k = 1 then model else if enable_escalation then escalation_model else model

/-! ## Helper lemmas -/

theorem alist_lookup_update {α : Type} (l : List (String × α)) (k : String) (f : α → α) :
    alist_lookup (alist_update l k f) k = (alist_lookup l k).map f := by
  induction l with
  | nil => simp [alist_lookup, alist_update]
  | cons h t ih =>
    obtain ⟨k0, v0⟩ := h
    by_cases hk : k0 = k
    · simp [alist_lookup, alist_update, hk]
    · simp [alist_lookup, alist_update, hk, ih]

theorem run_status_set_run_status (s : SwarmState) (rid : String) (st : RunStatus)
    (now : String) (h : (alist_lookup s.runs rid).isSome = true) :
    run_status (set_run_status s rid st now) rid = some st := by
  obtain ⟨r, hr⟩ := Option.isSome_iff_exists.mp h
  simp [set_run_status, hr, run_status, alist_lookup_update]

theorem set_run_status_isSome (s : SwarmState) (rid : String) (st : RunStatus)
    (now : String) :
    (alist_lookup (set_run_status s rid st now).runs rid).isSome =
      (alist_lookup s.runs rid).isSome := by
  cases hr : alist_lookup s.runs rid with
  | none => simp [set_run_status, hr]
  | some r => simp [set_run_status, hr, alist_lookup_update]

theorem complete_run_runs (s : SwarmState) (rid : String) (pr_url : Option String)
    (now : String) (r0 : RunState) (hr : alist_lookup s.runs rid = some r0) :
    alist_lookup (complete_run s rid pr_url now).runs rid =
      some { r0 with status := RunStatus.completed, pr_url := pr_url,
                     total_cost_usd := sum_worker_costs r0.workers, updated_at := now } := by
  by_cases hact : s.active_run = some rid <;>
    simp [complete_run, hr, hact, alist_lookup_update]

theorem sum_getD_filterMap (l : List (Option ℚ)) :
    (l.map (fun o => o.getD 0)).sum = (l.filterMap id).sum := by
  induction l with
  | nil => simp
  | cons h t ih => cases h <;> simp [ih]

/-! ## Claim C9 -/

/-- Claim C9: at the moment of completion (`complete_run`), the run
status is `completed` and its `total_cost_usd` equals the sum of the
`cost_usd` values of its workers, taken over the workers whose
`cost_usd` is present. -/
theorem C9_completed_total_cost (s : SwarmState) (rid : String) (pr_url : Option String)
    (now : String) (h : (alist_lookup s.runs rid).isSome = true) :
    run_status (complete_run s rid pr_url now) rid = some RunStatus.completed ∧
    (alist_lookup (complete_run s rid pr_url now).runs rid).map
        (fun r => r.total_cost_usd) =
      (alist_lookup (complete_run s rid pr_url now).runs rid).map
        (fun r => ((r.workers.map (fun w => w.2.cost_usd)).filterMap id).sum) := by
  obtain ⟨r0, hr⟩ := Option.isSome_iff_exists.mp h
  rw [run_status, complete_run_runs s rid pr_url now r0 hr]
  refine ⟨rfl, ?_⟩
  have hsum := sum_getD_filterMap (r0.workers.map (fun w => w.2.cost_usd))
  rw [List.map_map] at hsum
  exact congrArg some (by simpa [sum_worker_costs, Function.comp] using hsum)

/-- Witness for C9 on a concrete run with worker costs 0.10 and 0.05. -/
theorem C9_completed_total_cost_witness :
    run_status (complete_run c9State "run-1" none "T2") "run-1" =
        some RunStatus.completed ∧
    (alist_lookup (complete_run c9State "run-1" none "T2").runs "run-1").map
        (fun r => r.total_cost_usd) =
      (alist_lookup (complete_run c9State "run-1" none "T2").runs "run-1").map
        (fun r => ((r.workers.map (fun w => w.2.cost_usd)).filterMap id).sum) :=
  C9_completed_total_cost c9State "run-1" none "T2" (by decide)

/-! ## Claim C2 -/

/-- Claim C2 counterexample: on the checkpoint-1 decline path the
persisted status after `run()` returns is `completed`, not
`interrupted` — `complete_run` (orchestrator.py line 106) overwrites the
`interrupted` status that `_checkpoint` recorded. -/
theorem C2_decline_counterexample :
    run_status (checkpoint1_decline c2State0 "run-1" "T1" "T2" "T3").1 "run-1" =
        some RunStatus.completed ∧
    decide (run_status (checkpoint1_decline c2State0 "run-1" "T1" "T2" "T3").1 "run-1" =
        some RunStatus.interrupted) = false := by
  decide

/-- Claim C2 amended: when the user declines Checkpoint 1 the
orchestrator records status `interrupted` and returns without executing
any workers, but `run()` then calls `complete_run`, so the persisted
status after `run()` returns is `completed` (the `interrupted` status is
only recorded transiently before `complete_run`). -/
theorem C2_decline_amended (s : SwarmState) (rid n1 n2 n3 : String)
    (h : (alist_lookup s.runs rid).isSome = true) :
    run_status (checkpoint1_decline_mid s rid n1 n2) rid = some RunStatus.interrupted ∧
    (checkpoint1_decline s rid n1 n2 n3).2 = false ∧
    run_status (checkpoint1_decline s rid n1 n2 n3).1 rid = some RunStatus.completed := by
  have h1 : (alist_lookup (set_run_status s rid RunStatus.paused_checkpoint n1).runs
      rid).isSome = true := by rw [set_run_status_isSome]; exact h
  have h2 : (alist_lookup (checkpoint1_decline_mid s rid n1 n2).runs rid).isSome = true := by
    rw [checkpoint1_decline_mid, set_run_status_isSome]; exact h1
  refine ⟨?_, rfl, ?_⟩
  · exact run_status_set_run_status _ rid RunStatus.interrupted n2 h1
  · obtain ⟨r0, hr⟩ := Option.isSome_iff_exists.mp h2
    have : checkpoint1_decline s rid n1 n2 n3 =
        (complete_run (checkpoint1_decline_mid s rid n1 n2) rid none n3, false) := rfl
    rw [this, run_status, complete_run_runs _ rid none n3 r0 hr]
    rfl

/-- Witness for the amended C2 on a freshly started run. -/
theorem C2_decline_amended_witness :
    run_status (checkpoint1_decline_mid c2State0 "run-1" "T1" "T2") "run-1" =
        some RunStatus.interrupted ∧
    (checkpoint1_decline c2State0 "run-1" "T1" "T2" "T3").2 = false ∧
    run_status (checkpoint1_decline c2State0 "run-1" "T1" "T2" "T3").1 "run-1" =
        some RunStatus.completed :=
  C2_decline_amended c2State0 "run-1" "T1" "T2" "T3" (by decide)

/-! ## Claim C10 -/

/-- Claim C10: when Phase C produced results and none succeeded, the
Integrator is never invoked and the run is finalized as `completed`, the
returned SwarmResult carrying `integration_success = false` and no
`pr_url`. -/
theorem C10_no_success_completes (s : SwarmState) (rid now : String)
    (integ : List WorkerResult → Bool × Option String) (results : List WorkerResult)
    (hrun : (alist_lookup s.runs rid).isSome = true)
    (hne : results.length ≠ 0)
    (hfail : ∀ r ∈ results, r.success = false) :
    (run_finalize s rid now integ results).2.1 = false ∧
    run_status (run_finalize s rid now integ results).1 rid = some RunStatus.completed ∧
    (run_finalize s rid now integ results).2.2.1 = false ∧
    (run_finalize s rid now integ results).2.2.2 = none := by
  have hfilter : results.filter (fun r => r.success) = [] := by
    rw [List.filter_eq_nil_iff]
    intro r hrmem
    simp [hfail r hrmem]
  obtain ⟨r0, hr⟩ := Option.isSome_iff_exists.mp hrun
  have hfin : run_finalize s rid now integ results =
      (complete_run s rid none now, false, false, none) := by
    simp [run_finalize, hfilter]
  rw [hfin]
  refine ⟨rfl, ?_, rfl, rfl⟩
  rw [run_status, complete_run_runs s rid none now r0 hr]
  rfl

/-- Witness for C10: two failed workers, integration oracle untouched. -/
theorem C10_no_success_completes_witness :
    (run_finalize c2State0 "run-1" "T9" c10Integ c10Results).2.1 = false ∧
    run_status (run_finalize c2State0 "run-1" "T9" c10Integ c10Results).1 "run-1" =
        some RunStatus.completed ∧
    (run_finalize c2State0 "run-1" "T9" c10Integ c10Results).2.2.1 = false ∧
    (run_finalize c2State0 "run-1" "T9" c10Integ c10Results).2.2.2 = none :=
  C10_no_success_completes c2State0 "run-1" "T9" c10Integ c10Results (by decide) (by decide)
    (by decide)

/-! ## Claim C3 -/

/-- Claim C3 (reason: spec-modelled, `auto_merge_pr` is missing from
src/integrator.py): auto-merge is invoked only under the autonomous
oversight mode after successful integration produced a PR; it runs the
GitHub CLI exactly once, as `gh pr merge <url> --auto --squash`, returns
false on non-zero exit, and never attempts a direct merge. -/
theorem C3_auto_merge :
    (∀ (integration_success : Bool) (pr_url : Option String) (oversight : String),
      auto_merge_invoked integration_success pr_url oversight = true →
        oversight = "autonomous" ∧ prTruthy pr_url = true ∧ integration_success = true) ∧
    (∀ url : String,
      auto_merge_pr_commands url = [["gh", "pr", "merge", url, "--auto", "--squash"]] ∧
      (auto_merge_pr_commands url).length = 1) ∧
    (∀ rc : ℤ, auto_merge_pr rc = true ↔ rc = 0) := by
  refine ⟨?_, ?_, ?_⟩
  · intro i p o h
    rw [auto_merge_invoked, Bool.and_eq_true, Bool.and_eq_true] at h
    exact ⟨by simpa using h.2, h.1.2, h.1.1⟩
  · intro url
    exact ⟨rfl, rfl⟩
  · intro rc
    simp [auto_merge_pr]

/-- Witness for C3 at a concrete invocation. -/
theorem C3_auto_merge_witness :
    ("autonomous" : String) = "autonomous" ∧
      prTruthy (some "https://github.com/o/r/pull/1") = true ∧ (true : Bool) = true :=
  C3_auto_merge.1 true (some "https://github.com/o/r/pull/1") "autonomous" (by decide)

/-! ## Claim C1 -/

/-- Claim C1: once the shared cost-exceeded flag is set, every worker
entering the semaphore critical section is skipped without invoking the
Worker Runner — its persisted state becomes `failed` with error
"Skipped: cost limit exceeded" and a synthetic failed WorkerResult is
returned; in the concrete scenario (three workers each completing with
`cost_usd = 0.10`, `max_workers = 1`, `max_cost = 0.05`) exactly one
worker executes and the other two end failed with that error. -/
theorem C1_cost_circuit_breaker :
    (∀ (spawn : WorkerTask → SpawnOutcome) (changed_files : String → List String)
       (max_cost : ℚ) (rid now : String) (st : ExecSt) (task : WorkerTask),
      st.cost_exceeded = true →
        launch_step spawn changed_files max_cost rid now st task =
          ({ st with
              state := update_worker st.state rid task.worker_id (skip_update now) now },
           { worker_id := task.worker_id, success := false, error := some skipError },
           false)) ∧
    (c1Exec.2.2 = ["w1"] ∧
     c1Exec.2.1.map (fun r => (r.worker_id, r.success, r.error)) =
       [("w1", true, none), ("w2", false, some skipError), ("w3", false, some skipError)] ∧
     (persisted_worker c1Exec.1.state "run-1" "w1").map (fun w => w.status) =
       some WorkerStatus.completed ∧
     (persisted_worker c1Exec.1.state "run-1" "w2").map (fun w => (w.status, w.error)) =
       some (WorkerStatus.failed, some skipError) ∧
     (persisted_worker c1Exec.1.state "run-1" "w3").map (fun w => (w.status, w.error)) =
       some (WorkerStatus.failed, some skipError) ∧
     c1Exec.1.cost_exceeded = true) := by
  constructor
  · intro spawn changed_files max_cost rid now st task hflag
    simp [launch_step, hflag]
  · simp [c1Exec, execute_workers, c1Tasks, c1Init, launch_step, c1Spawn, c1NoFiles, scTask,
      update_worker, skip_update, persisted_worker, c1State0, register_worker, start_run,
      emptySwarmState, alist_lookup, alist_update, alist_insert, skipError]
    decide

/-- Witness for C1: a worker entering with the flag already set is
skipped. -/
theorem C1_cost_circuit_breaker_witness :
    launch_step c1Spawn c1NoFiles q005 "run-1" "T1" c1SkipSt (scTask "w2" "t2") =
      ({ c1SkipSt with
          state := update_worker c1SkipSt.state "run-1" (scTask "w2" "t2").worker_id
            (skip_update "T1") "T1" },
       { worker_id := (scTask "w2" "t2").worker_id, success := false, error := some skipError },
       false) :=
  C1_cost_circuit_breaker.1 c1Spawn c1NoFiles q005 "run-1" "T1" c1SkipSt
    (scTask "w2" "t2") (by decide)

/-! ## Claim C4 -/

/-- Claim C4 (code bug): the shipped `_spawn_single_attempt` never
appends the three-channel coordination section — it has no
`coordination_dir` parameter at all, and with a notes directory it
appends only the legacy notes section (here evaluated at the failing
input: the worker `w1` of a run whose coordination directory exists,
with the notes path the orchestrator passes). -/
theorem C4_no_coordination_section :
    (∀ (task : WorkerTask) (notes_dir : Option String),
      ((worker_system_prompt_parts task notes_dir).map section_header).contains
          "## Coordination (Inter-Worker Communication)" = false) ∧
    worker_system_prompt_parts (scTask "w1" "test")
        (some ".claude-swarm/coordination/run-1/notes") =
      [PromptPart.base "test" "No specific files targeted." "Complete the task as described.",
       PromptPart.notesSection ".claude-swarm/coordination/run-1/notes" "w1"] := by
  constructor
  · intro task notes_dir
    cases notes_dir with
    | none => simp [worker_system_prompt_parts, section_header]
    | some d =>
      by_cases hc : task.coordination_notes = "" <;>
        simp [worker_system_prompt_parts, section_header, hc]
  · decide

/-! ## Claim C5 -/

/-- Invariant of the retry loop of `spawn_worker_with_retry`: the trace
lists consecutive 1-based attempt numbers; the first attempt (and, when
escalation is disabled, every attempt) uses the base model while later
attempts use the escalation model when enabled; the returned result is
that of the last attempt made, carrying its attempt number and model;
and when every attempt fails the loop runs to exhaustion and returns the
last failed result instead of raising. -/
theorem retry_go_spec (o : ℕ → WorkerResult) (m e : String) (esc : Bool) :
    ∀ (r0 a : ℕ) (prev : Option WorkerResult),
      ((a = 1 ∧ prev = none) ∨ (2 ≤ a ∧ ∃ p, prev = some p ∧ p.success = false)) →
      (retry_go o m e esc prev a (r0 + 1)).2.map Prod.fst =
          List.range' a (retry_go o m e esc prev a (r0 + 1)).2.length ∧
      (∀ q ∈ (retry_go o m e esc prev a (r0 + 1)).2,
          q.2 = retry_model_for m e esc q.1) ∧
      1 ≤ (retry_go o m e esc prev a (r0 + 1)).2.length ∧
      (retry_go o m e esc prev a (r0 + 1)).2.length ≤ r0 + 1 ∧
      (retry_go o m e esc prev a (r0 + 1)).1.map (fun res => (res.attempt, res.model_used)) =
        some (a + ((retry_go o m e esc prev a (r0 + 1)).2.length - 1),
          some (retry_model_for m e esc
            (a + ((retry_go o m e esc prev a (r0 + 1)).2.length - 1)))) ∧
      ((∀ k, a ≤ k → k < a + (r0 + 1) → (o k).success = false) →
        (retry_go o m e esc prev a (r0 + 1)).2.length = r0 + 1 ∧
        (retry_go o m e esc prev a (r0 + 1)).1.map (fun res => res.success) = some false) := by
  intro r0
  induction r0 with
  | zero =>
    intro a prev hprev
    rcases hprev with ⟨ha, hp⟩ | ⟨ha, p, hp, hps⟩
    · subst ha; subst hp
      by_cases hs : (o 1).success
      · simp [retry_go, hs, retry_model_for]
        exact ⟨1, le_refl 1, by omega, hs⟩
      · simp [retry_go, hs, retry_model_for]
    · subst hp
      have h1a : (1 : ℕ) < a := by omega
      have hane : a ≠ 1 := by omega
      by_cases hs : (o a).success
      · simp [retry_go, hs, h1a, hps, retry_model_for, hane]
        exact ⟨a, le_refl a, by omega, hs⟩
      · simp [retry_go, hs, h1a, hps, retry_model_for, hane]
  | succ r0 ih =>
    intro a prev hprev
    rcases hprev with ⟨ha, hp⟩ | ⟨ha, p, hp, hps⟩
    · subst ha; subst hp
      by_cases hs : (o 1).success
      · simp [retry_go, hs, retry_model_for]
        exact ⟨1, le_refl 1, by omega, hs⟩
      · have hstep : retry_go o m e esc none 1 (r0 + 1 + 1) =
            ((retry_go o m e esc (some { o 1 with attempt := 1, model_used := some m })
                2 (r0 + 1)).1,
             (1, m) :: (retry_go o m e esc
                (some { o 1 with attempt := 1, model_used := some m }) 2 (r0 + 1)).2) := by
          simp [retry_go, hs]
        have hinv : (((2 : ℕ) = 1 ∧
              (some { o 1 with attempt := 1, model_used := some m } :
                Option WorkerResult) = none) ∨
            (2 ≤ 2 ∧ ∃ q,
              (some { o 1 with attempt := 1, model_used := some m } :
                Option WorkerResult) = some q ∧ q.success = false)) := by
          right
          exact ⟨le_refl 2, _, rfl, by simpa using hs⟩
        obtain ⟨ih1, ih2, ih3, ih4, ih5, ih6⟩ := ih 2
          (some { o 1 with attempt := 1, model_used := some m }) hinv
        rw [hstep]
        set rest := retry_go o m e esc
          (some { o 1 with attempt := 1, model_used := some m }) 2 (r0 + 1) with hrestdef
        refine ⟨?_, ?_, ?_, ?_, ?_, ?_⟩
        · simp only [List.map_cons, List.length_cons, List.range'_succ]
          rw [ih1]
        · intro q hq
          rcases List.mem_cons.mp hq with hq | hq
          · subst hq; simp [retry_model_for]
          · exact ih2 q hq
        · simp
        · simp only [List.length_cons]; omega
        · have hidx : (2 : ℕ) + (rest.2.length - 1) = 1 + ((rest.2.length + 1) - 1) := by
            omega
          simp only [List.length_cons]
          rw [← hidx]
          exact ih5
        · intro hall
          have hall2 : ∀ k, 2 ≤ k → k < 2 + (r0 + 1) → (o k).success = false := by
            intro k hk1 hk2
            exact hall k (by omega) (by omega)
          obtain ⟨hlen, hsc⟩ := ih6 hall2
          exact ⟨by simp only [List.length_cons]; omega, hsc⟩
    · subst hp
      have h1a : (1 : ℕ) < a := by omega
      have hane : a ≠ 1 := by omega
      by_cases hs : (o a).success
      · simp [retry_go, hs, h1a, hps, retry_model_for, hane]
        exact ⟨a, le_refl a, by omega, hs⟩
      · have hcm : retry_model_for m e esc a = if esc then e else m := by
          simp [retry_model_for, hane]
        have hstep : retry_go o m e esc (some p) a (r0 + 1 + 1) =
            ((retry_go o m e esc
                (some { o a with attempt := a, model_used := some (if esc then e else m) })
                (a + 1) (r0 + 1)).1,
             (a, if esc then e else m) :: (retry_go o m e esc
                (some { o a with attempt := a, model_used := some (if esc then e else m) })
                (a + 1) (r0 + 1)).2) := by
          cases esc <;> simp [retry_go, hs, h1a, hps]
        have hinv : ((a + 1 = 1 ∧
              (some { o a with attempt := a, model_used := some (if esc then e else m) } :
                Option WorkerResult) = none) ∨
            (2 ≤ a + 1 ∧ ∃ q,
              (some { o a with attempt := a, model_used := some (if esc then e else m) } :
                Option WorkerResult) = some q ∧ q.success = false)) := by
          right
          exact ⟨by omega, _, rfl, by simpa using hs⟩
        obtain ⟨ih1, ih2, ih3, ih4, ih5, ih6⟩ := ih (a + 1)
          (some { o a with attempt := a, model_used := some (if esc then e else m) }) hinv
        rw [hstep]
        set rest := retry_go o m e esc
          (some { o a with attempt := a, model_used := some (if esc then e else m) })
          (a + 1) (r0 + 1) with hrestdef
        refine ⟨?_, ?_, ?_, ?_, ?_, ?_⟩
        · simp only [List.map_cons, List.length_cons, List.range'_succ]
          rw [ih1]
        · intro q hq
          rcases List.mem_cons.mp hq with hq | hq
          · subst hq; simp [retry_model_for, hane]
          · exact ih2 q hq
        · simp
        · simp only [List.length_cons]; omega
        · have hidx : (a + 1) + (rest.2.length - 1) = a + ((rest.2.length + 1) - 1) := by
            omega
          simp only [List.length_cons]
          rw [← hidx]
          exact ih5
        · intro hall
          have hall2 : ∀ k, a + 1 ≤ k → k < (a + 1) + (r0 + 1) → (o k).success = false := by
            intro k hk1 hk2
            exact hall k (by omega) (by omega)
          obtain ⟨hlen, hsc⟩ := ih6 hall2
          exact ⟨by simp only [List.length_cons]; omega, hsc⟩

/-- Claim C5: for every call of `spawn_worker_with_retry`, the first
attempt uses the base model; when escalation is enabled every attempt
after a failure (the second and subsequent attempts) uses the
escalation model id, otherwise the base model is reused; the returned
WorkerResult carries `attempt` equal to the 1-based number of the
attempt that produced it and `model_used` equal to the model actually
used; with one single attempt allowed the escalation model is never
used; and when every attempt fails the last failed result is returned
rather than an exception being raised. -/
theorem C5_retry_escalation_policy (o : ℕ → WorkerResult) (m e : String) (esc : Bool)
    (n : ℕ) (hn : 1 ≤ n) :
    (spawn_worker_with_retry o m e esc n).2.map Prod.fst =
        List.range' 1 (spawn_worker_with_retry o m e esc n).2.length ∧
    (spawn_worker_with_retry o m e esc n).2.head? = some (1, m) ∧
    (∀ q ∈ (spawn_worker_with_retry o m e esc n).2,
        q.2 = retry_model_for m e esc q.1) ∧
    1 ≤ (spawn_worker_with_retry o m e esc n).2.length ∧
    (spawn_worker_with_retry o m e esc n).2.length ≤ n ∧
    (spawn_worker_with_retry o m e esc n).1.map (fun r => (r.attempt, r.model_used)) =
      some ((spawn_worker_with_retry o m e esc n).2.length,
        some (retry_model_for m e esc (spawn_worker_with_retry o m e esc n).2.length)) ∧
    (n = 1 → (spawn_worker_with_retry o m e esc n).2 = [(1, m)]) ∧
    ((∀ k, 1 ≤ k → k ≤ n → (o k).success = false) →
      (spawn_worker_with_retry o m e esc n).2.length = n ∧
      (spawn_worker_with_retry o m e esc n).1.map (fun r => r.success) = some false) := by
  obtain ⟨n0, rfl⟩ : ∃ n0, n = n0 + 1 := ⟨n - 1, by omega⟩
  have hspec := retry_go_spec o m e esc n0 1 none (Or.inl ⟨rfl, rfl⟩)
  obtain ⟨ih1, ih2, ih3, ih4, ih5, ih6⟩ := hspec
  have hsw : spawn_worker_with_retry o m e esc (n0 + 1) =
      retry_go o m e esc none 1 (n0 + 1) := rfl
  rw [hsw]
  set P := retry_go o m e esc none 1 (n0 + 1) with hP
  have hhead : P.2.head? = some (1, m) := by
    cases hl : P.2 with
    | nil => rw [hl] at ih3; simp at ih3
    | cons q t =>
      rw [hl] at ih1
      simp only [List.map_cons, List.length_cons, List.range'_succ] at ih1
      obtain ⟨hq1, _⟩ := List.cons.injEq _ _ _ _ ▸ ih1
      have hq2 := ih2 q (by rw [hl]; exact List.mem_cons_self q t)
      rw [hq1] at hq2
      simp [retry_model_for] at hq2
      cases q with
      | mk qa qm =>
        simp at hq1 hq2
        subst hq1; subst hq2
        simp
  have hidx : 1 + (P.2.length - 1) = P.2.length := by omega
  refine ⟨ih1, hhead, ih2, ih3, ih4, ?_, ?_, ?_⟩
  · rw [hidx] at ih5
    exact ih5
  · intro h1
    have hlen1 : P.2.length = 1 := by omega
    cases hl : P.2 with
    | nil => rw [hl] at ih3; simp at ih3
    | cons q t =>
      have ht : t = [] := by
        rw [hl] at hlen1
        simpa using hlen1
      subst ht
      rw [hl] at hhead
      simp only [List.head?_cons, Option.some.injEq] at hhead
      rw [hhead]
  · intro hall
    apply ih6
    intro k hk1 hk2
    exact hall k hk1 (by omega)


/-- Witness for C5: attempt 1 fails, attempt 2 succeeds on the
escalation model. -/
theorem C5_retry_escalation_policy_witness :
    (spawn_worker_with_retry c5Outcome "sonnet" "opus" true 2).2.head? =
        some (1, "sonnet") ∧
    (spawn_worker_with_retry c5Outcome "sonnet" "opus" true 2).1.map
        (fun r => (r.attempt, r.model_used)) =
      some ((spawn_worker_with_retry c5Outcome "sonnet" "opus" true 2).2.length,
        some (retry_model_for "sonnet" "opus" true
          (spawn_worker_with_retry c5Outcome "sonnet" "opus" true 2).2.length)) :=
  ⟨(C5_retry_escalation_policy c5Outcome "sonnet" "opus" true 2 (by decide)).2.1,
   (C5_retry_escalation_policy c5Outcome "sonnet" "opus" true 2
      (by decide)).2.2.2.2.2.1⟩

/-! ## Claim C6 -/

/-- Python string slicing `s[:2000]` yields at most 2000 characters. -/
theorem truncate_chars_length (n : ℕ) (s : String) : (truncate_chars n s).length ≤ n := by
  show (List.take n s.data).length ≤ n
  rw [List.length_take]
  exact min_le_left _ _

/-- A branch that merges cleanly (or is rescued by the resolver) is
appended to `merged_branches` and the loop continues. -/
theorem integrate_merges_cons_merged (merge_ok resolver_ok : String → Bool)
    (resolve_conflicts : Bool) (diff_of : String → String) (x : String)
    (rest merged : List String)
    (hx : merge_ok x = true ∨ (resolve_conflicts = true ∧ resolver_ok x = true)) :
    integrate_merges merge_ok resolver_ok resolve_conflicts diff_of (x :: rest) merged =
      (GitOp.mergeBranch x ::
         (integrate_merges merge_ok resolver_ok resolve_conflicts diff_of rest
           (merged ++ [x])).1,
       (integrate_merges merge_ok resolver_ok resolve_conflicts diff_of rest
         (merged ++ [x])).2) := by
  rcases hx with hx | ⟨hrc, hrx⟩
  · simp [integrate_merges, hx]
  · by_cases hmx : merge_ok x = true
    · simp [integrate_merges, hmx]
    · simp [integrate_merges, hmx, hrc, hrx]

/-- Reaching an unresolvable conflict after a prefix of clean merges
aborts the merge, captures the truncated diff, and raises
MergeConflictError listing the offender first, then the accumulated
merged branches. -/
theorem integrate_merges_error_go (merge_ok resolver_ok : String → Bool)
    (resolve_conflicts : Bool) (diff_of : String → String) :
    ∀ (pre : List String) (b : String) (post merged : List String),
      (∀ x ∈ pre, merge_ok x = true ∨ (resolve_conflicts = true ∧ resolver_ok x = true)) →
      merge_ok b = false →
      (resolve_conflicts = false ∨ resolver_ok b = false) →
      integrate_merges merge_ok resolver_ok resolve_conflicts diff_of (pre ++ b :: post)
          merged =
        (pre.map GitOp.mergeBranch ++
           [GitOp.mergeBranch b, GitOp.mergeAbort, GitOp.diffBase b],
         Except.error
           { message := "Merge conflict when integrating " ++ b,
             conflicting_branches := [b] ++ (merged ++ pre),
             diff_context := truncate_chars 2000 (diff_of b) }) := by
  intro pre
  induction pre with
  | nil =>
    intro b post merged _ hb hres
    have hcond : (resolve_conflicts && resolver_ok b) = false := by
      rcases hres with h | h <;> simp [h]
    simp [integrate_merges, hb, hcond]
  | cons x xs ih =>
    intro b post merged hpre hb hres
    have hx := hpre x (List.mem_cons_self x xs)
    have hxs : ∀ y ∈ xs,
        merge_ok y = true ∨ (resolve_conflicts = true ∧ resolver_ok y = true) :=
      fun y hy => hpre y (List.mem_cons_of_mem x hy)
    have htail := ih b post (merged ++ [x]) hxs hb hres
    rw [List.cons_append,
      integrate_merges_cons_merged merge_ok resolver_ok resolve_conflicts diff_of x
        (xs ++ b :: post) merged hx, htail]
    simp

/-- Claim C6: when a non-fast-forward merge of the branch of a
successful worker fails and conflict resolution is disabled or the resolver agent
fails, the Integrator aborts the merge and raises MergeConflictError
whose `conflicting_branches` is the offending branch followed by the
branches already merged onto the integration branch, and whose
`diff_context` is the base-vs-offender diff truncated to at most 2000
characters. -/
theorem C6_merge_conflict_error (merge_ok resolver_ok : String → Bool)
    (resolve_conflicts : Bool) (diff_of : String → String) (pre : List String)
    (b : String) (post : List String)
    (hpre : ∀ x ∈ pre, merge_ok x = true ∨ (resolve_conflicts = true ∧ resolver_ok x = true))
    (hb : merge_ok b = false)
    (hfail : resolve_conflicts = false ∨ resolver_ok b = false) :
    integrate_merges merge_ok resolver_ok resolve_conflicts diff_of (pre ++ b :: post) [] =
      (pre.map GitOp.mergeBranch ++
         [GitOp.mergeBranch b, GitOp.mergeAbort, GitOp.diffBase b],
       Except.error
         { message := "Merge conflict when integrating " ++ b,
           conflicting_branches := b :: pre,
           diff_context := truncate_chars 2000 (diff_of b) }) ∧
    (truncate_chars 2000 (diff_of b)).length ≤ 2000 := by
  constructor
  · have h := integrate_merges_error_go merge_ok resolver_ok resolve_conflicts diff_of
      pre b post [] hpre hb hfail
    simpa using h
  · exact truncate_chars_length 2000 (diff_of b)

/-- Witness for C6: w1 merges, w2 conflicts with the resolver failing. -/
theorem C6_merge_conflict_error_witness :
    integrate_merges c6MergeOk c6ResolverFail true c6Diff
        ["swarm/run-1/w1", "swarm/run-1/w2"] [] =
      ([GitOp.mergeBranch "swarm/run-1/w1", GitOp.mergeBranch "swarm/run-1/w2",
        GitOp.mergeAbort, GitOp.diffBase "swarm/run-1/w2"],
       Except.error
         { message := "Merge conflict when integrating " ++ "swarm/run-1/w2",
           conflicting_branches := "swarm/run-1/w2" :: ["swarm/run-1/w1"],
           diff_context := truncate_chars 2000 (c6Diff "swarm/run-1/w2") }) ∧
    (truncate_chars 2000 (c6Diff "swarm/run-1/w2")).length ≤ 2000 := by
  have h := C6_merge_conflict_error c6MergeOk c6ResolverFail true c6Diff
    ["swarm/run-1/w1"] "swarm/run-1/w2" [] (by decide) (by decide) (Or.inr (by decide))
  simpa using h

/-! ## Claim C7 -/

/-- Claim C7 counterexample: with `check=false` a non-lock failure
returns the subprocess stdout (here "partial"), not the empty string;
and the lock-exhaustion message ends "(lock contention)", so it does not
end with "failed after 3 retries". -/
theorem C7_run_git_counterexample :
    run_git c7BadProc ["log", "--oneline"] false 3 = GitOutcome.ok "partial" ∧
    ("partial" : String).isEmpty = false ∧
    run_git c7LockProc ["status"] true 3 =
      GitOutcome.err "git status failed after 3 retries (lock contention)" ∧
    ends_with "git status failed after 3 retries (lock contention)"
      "failed after 3 retries" = false := by
  decide

/-- Claim C7 amended: a git invocation exiting non-zero with stderr not
mentioning "lock" (case-insensitive) raises WorktreeError carrying the
stderr message when `check` is true and returns the stdout of the
command (not raising) when `check` is false; when all 3 attempts hit lock
contention and `check` is true it raises WorktreeError whose message
contains "failed after 3 retries" (and continues "(lock contention)"). -/
theorem C7_run_git_amended :
    (∀ (proc : ℕ → ProcResult) (args : List String) (retries i r : ℕ),
      (proc i).returncode ≠ 0 →
      stderr_mentions_lock (proc i).stderr = false →
      run_git_go proc (String.intercalate " " args) true retries i (r + 1) =
        GitOutcome.err ("git " ++ String.intercalate " " args ++ " failed: " ++
          (proc i).stderr) ∧
      run_git_go proc (String.intercalate " " args) false retries i (r + 1) =
        GitOutcome.ok (proc i).stdout) ∧
    (∀ (proc : ℕ → ProcResult) (args : List String),
      (∀ i, i < 3 → (proc i).returncode ≠ 0 ∧
        stderr_mentions_lock (proc i).stderr = true) →
      run_git proc args true 3 =
        GitOutcome.err ("git " ++ String.intercalate " " args ++ " failed after " ++
          toString 3 ++ " retries (lock contention)")) ∧
    contains_substr "failed after 3 retries"
      "git status failed after 3 retries (lock contention)" = true := by
  refine ⟨?_, ?_, by decide⟩
  · intro proc args retries i r h1 h2
    constructor <;> simp [run_git_go, h1, h2]
  · intro proc args hall
    have h0 := hall 0 (by omega)
    have h1 := hall 1 (by omega)
    have h2 := hall 2 (by omega)
    simp [run_git, run_git_go, h0.1, h0.2, h1.1, h1.2, h2.1, h2.2]


/-- Witness for the amended C7 at concrete subprocess outcomes. -/
theorem C7_run_git_amended_witness :
    (run_git_go c7BadProc (String.intercalate " " ["log", "--oneline"]) true 3 0 3 =
        GitOutcome.err ("git " ++ String.intercalate " " ["log", "--oneline"] ++
          " failed: " ++ (c7BadProc 0).stderr) ∧
      run_git_go c7BadProc (String.intercalate " " ["log", "--oneline"]) false 3 0 3 =
        GitOutcome.ok (c7BadProc 0).stdout) ∧
    run_git c7LockProc ["status"] true 3 =
      GitOutcome.err ("git " ++ String.intercalate " " ["status"] ++ " failed after " ++
        toString 3 ++ " retries (lock contention)") :=
  ⟨C7_run_git_amended.1 c7BadProc ["log", "--oneline"] 3 0 2 (by decide) (by decide),
   C7_run_git_amended.2.1 c7LockProc ["status"] (by decide)⟩

/-! ## Claim C8 -/

/-- Claim C8 counterexample: the `git reset --hard` and `rm -rf` deny
rules are unanchored `search` patterns, so a command whose dangerous
text appears only inside a quoted grep/echo argument is denied, not
allowed. -/
theorem C8_guard_counterexample :
    check_bash_command "grep \"git reset --hard\" log.txt" = some "Hard reset is blocked" ∧
    check_bash_command "echo \"rm -rf /tmp\"" =
      some "Recursive delete on absolute path is blocked" := by
  decide

/-- Claim C8 amended: only the sudo/mkfs/shred/nohup/crontab/at rules
anchor the command name at shell-command-start positions (start of
string, or after one of `;`, `&`, `|`, `&&`, `||`), so those names
inside file paths or grep arguments are allowed; the remaining
command-name rules (git force-push in all flag spellings, reset --hard,
clean -f, remote mutation, rm -rf on absolute paths) are unanchored
substring searches, so a quoted occurrence of `git reset --hard` or
`rm -rf /` is denied; `git push origin feature` is allowed. -/
theorem C8_guard_amended :
    check_bash_command "git push --force origin main" = some "Force push is blocked" ∧
    check_bash_command "git push -f origin main" = some "Force push is blocked" ∧
    check_bash_command "git push -vf origin main" = some "Force push is blocked" ∧
    check_bash_command "git push -fv origin main" = some "Force push is blocked" ∧
    check_bash_command "git push origin feature" = none ∧
    check_bash_command "sudo apt-get install foo" = some "sudo is blocked" ∧
    check_bash_command "true && sudo reboot" = some "sudo is blocked" ∧
    check_bash_command "false || sudo reboot" = some "sudo is blocked" ∧
    check_bash_command "echo | sudo tee /etc/hosts" = some "sudo is blocked" ∧
    check_bash_command "cat docs/sudo-alternatives.md" = none ∧
    check_bash_command "grep \"use sudo carefully\" README.md" = none ∧
    check_bash_command "python mkfixtures.py" = none ∧
    check_bash_command "grep mkfs setup.py" = none ∧
    check_bash_command "man shred" = none ∧
    check_bash_command "grep nohup process_manager.py" = none ∧
    check_bash_command "cat /etc/crontab" = none ∧
    check_bash_command "grep \"at this point\" README.md" = none ∧
    check_bash_command "git reset --hard" = some "Hard reset is blocked" ∧
    check_bash_command "grep \"git reset --hard\" log.txt" = some "Hard reset is blocked" ∧
    check_bash_command "rm -rf /" = some "Recursive delete on absolute path is blocked" ∧
    check_bash_command "echo \"rm -rf /tmp\"" =
      some "Recursive delete on absolute path is blocked" := by
  decide

end ClaudeSwarm
